import Mathlib

/-
  Shallow embedding of the dialog `closedBy` polyfill (src/index.js, the
  bundled module: src/listeners.ts + src/observer.ts + src/index.ts).

  Dialogs are identified by natural numbers (reference identity).  The
  process-wide mutable state of the polyfill — the insertion-ordered Set
  `activeDialogs` and the domain of the WeakMap `dialogStates` — together
  with the per-dialog DOM state the handlers read (the `closedby` attribute
  and the `open` flag) is packaged into one record `PState`, and every
  patched operation becomes a function `PState → ... → PState`.
-/

namespace ClosedByPolyfill

/-- Normalization of the `closedby` attribute (src/index.js lines 3-6):
`raw === "closerequest" || raw === "none" ? raw : "any"`, with `none`
standing for an absent attribute (`getAttribute` returning null). -/
def getClosedByValue (raw : Option String) : String :=
  match raw with
  | some s => if s = "closerequest" ∨ s = "none" then s else "any"
  | none => "any"

/-- Global polyfill state: `stack` is the insertion-ordered contents of the
`activeDialogs` Set (oldest first), `records` is the domain of the
`dialogStates` WeakMap (insertion-ordered as well), `attr` gives each
dialog's current `closedby` attribute, `isOpen` its `open` flag. -/
structure PState where
  stack : List Nat
  records : List Nat
  attr : Nat → Option String
  isOpen : Nat → Bool

/-- JS `Set.prototype.add`: appends the element iff not already present
(insertion order of an existing element is kept). -/
def setAdd (l : List Nat) (d : Nat) : List Nat :=
  if d ∈ l then l else l ++ [d]

/-- JS `Set.prototype.delete` / `WeakMap.prototype.delete`: removes the
element wherever it sits. -/
def setDelete (l : List Nat) (d : Nat) : List Nat :=
  l.filter (fun x => x ≠ d)

/-- Pointwise update of the open flag of one dialog. -/
def setOpen (f : Nat → Bool) (d : Nat) (b : Bool) : Nat → Bool :=
  fun x => if x = d then b else f x

/-- Pointwise update of the `closedby` attribute of one dialog. -/
def setAttr (f : Nat → Option String) (d : Nat) (v : Option String) :
    Nat → Option String :=
  fun x => if x = d then v else f x

/-- `attachDialog` (src/index.js lines 43-60): no-op when a record already
exists; otherwise installs listeners, adds the dialog to `activeDialogs`
and stores the record in `dialogStates`. -/
def attachDialog (st : PState) (d : Nat) : PState :=
  if d ∈ st.records then st
  else { st with stack := setAdd st.stack d, records := setAdd st.records d }

/-- `detachDialog` (src/index.js lines 61-69): no-op when no record exists;
otherwise removes listeners and deletes the dialog from `activeDialogs`
and `dialogStates`. -/
def detachDialog (st : PState) (d : Nat) : PState :=
  if d ∈ st.records then
    { st with stack := setDelete st.stack d, records := setDelete st.records d }
  else st

/-- The patched `close` (src/index.js lines 140-143): detach first, then the
native close clears the dialog's `open` flag. -/
def closePatched (st : PState) (d : Nat) : PState :=
  let st1 := detachDialog st d
  { st1 with isOpen := setOpen st1.isOpen d false }

/-- The patched `showModal` (src/index.js lines 135-139).  The outcome of the
native open sequence is abstracted by `openAfter`, the value of `this.open`
right after `originalShowModal` returns (native open can fail, leaving the
dialog closed).  Then: `if (!this.open) return;
if (this.hasAttribute("closedby")) attachDialog(this);`. -/
def showModalPatched (st : PState) (d : Nat) (openAfter : Bool) : PState :=
  let st1 := { st with isOpen := setOpen st.isOpen d openAfter }
  if !st1.isOpen d then st1
  else if (st1.attr d).isSome then attachDialog st1 d else st1

/-- The `closedBy` property getter (src/index.js lines 145-148), which
re-implements the normalization inline. -/
def closedByGet (st : PState) (d : Nat) : String :=
  match st.attr d with
  | some v => if v = "closerequest" ∨ v = "none" then v else "any"
  | none => "any"

/-- The `closedBy` property setter (src/index.js lines 149-165): a recognized
literal is stored verbatim, anything else is stored as `"any"` (with a
console diagnostic, not modelled); then, when the dialog is open, attach if
the attribute is present, else detach. -/
def closedBySet (st : PState) (d : Nat) (value : String) : PState :=
  let newVal := if value = "any" ∨ value = "closerequest" ∨ value = "none"
    then value else "any"
  let st1 := { st with attr := setAttr st.attr d (some newVal) }
  if st1.isOpen d then
    if (st1.attr d).isSome then attachDialog st1 d else detachDialog st1 d
  else st1

/-- The loop body of `documentEscapeHandler` (src/index.js lines 13-23) over
the reversed snapshot of `activeDialogs`.  Returns
`(shouldPreventDefault, hasClosableDialog, dialogs on which close() ran)`;
the loop breaks at the first dialog whose policy is decided (`"none"` keeps
walking impossible, `"any"`/`"closerequest"` closes and breaks). -/
def escLoop (attr : Nat → Option String) : List Nat → Bool × Bool × List Nat
  | [] => (false, false, [])
  | d :: rest =>
    let cb := getClosedByValue (attr d)
    if cb = "none" then (true, false, [])
    else if cb = "any" ∨ cb = "closerequest" then (false, true, [d])
    else escLoop attr rest

/-- Outcome of one keydown delivered to `documentEscapeHandler`:
whether `event.preventDefault()` ran, which dialogs `close()` ran on,
and the polyfill state afterwards. -/
structure EscOutcome where
  prevented : Bool
  closedDialogs : List Nat
  finalState : PState

/-- `documentEscapeHandler` (src/index.js lines 8-27).  The guard is
`event.key !== "Escape" || activeDialogs.size === 0`; otherwise the loop
walks `Array.from(activeDialogs).reverse()` (a snapshot, newest first).
The `dialog.close()` inside the loop is the patched close; since the loop
breaks immediately after calling it, folding the closes over the state
after the walk is exact. -/
def documentEscapeHandler (st : PState) (key : String) : EscOutcome :=
  if key ≠ "Escape" ∨ st.stack = [] then ⟨false, [], st⟩
  else
    let r := escLoop st.attr st.stack.reverse
    ⟨r.1 || r.2.1, r.2.2, r.2.2.foldl closePatched st⟩

/-- Rendered content box of a dialog, as returned by
`getBoundingClientRect()` at click time. -/
structure Rect where
  top : Int
  bottom : Int
  left : Int
  right : Int

/-- A click event as seen by the click handler: original target (an element
id) and pointer coordinates. -/
structure ClickEvent where
  target : Nat
  clientX : Int
  clientY : Int

/-- The handler produced by `createClickHandler` (src/index.js lines 29-37).
Returns `true` iff `dialog.close()` is invoked: target must be the dialog
itself, resolved policy must be `"any"`, and the pointer must not lie
strictly inside the content box (`rect.top < clientY && clientY <
rect.bottom && rect.left < clientX && clientX < rect.right`). -/
def handleClick (dialog : Nat) (attr : Option String) (rect : Rect)
    (ev : ClickEvent) : Bool :=
  if ev.target ≠ dialog then false
  else if getClosedByValue attr ≠ "any" then false
  else if rect.top < ev.clientY ∧ ev.clientY < rect.bottom ∧
      rect.left < ev.clientX ∧ ev.clientX < rect.right then false
  else true

/-- Modelled from the spec's words, for comparison with `handleClick` only
(spec 4.2: "returns true iff the pointer coordinate lies strictly outside
that box"): the point is strictly outside the closed rectangle. -/
def strictlyOutsideSpec (rect : Rect) (x y : Int) : Bool :=
  decide (y < rect.top ∨ rect.bottom < y ∨ x < rect.left ∨ rect.right < x)

/-- Host environment seen by `apply` (src/index.js lines 117-171): the
module-level `polyfilled` flag, whether `closedBy` is in
`HTMLDialogElement.prototype` (the `isSupported` probe), whether
`showModal` is in the prototype, whether the overrides were installed,
and whether the skip diagnostic was emitted. -/
structure Host where
  polyfilled : Bool
  closedByInProto : Bool
  showModalInProto : Bool
  patched : Bool
  warned : Bool
  deriving DecidableEq

/-- `isSupported` (src/index.js lines 118-120). -/
def isSupported (h : Host) : Bool := h.closedByInProto

/-- `isPolyfilled` (src/index.js lines 121-123). -/
def isPolyfilled (h : Host) : Bool := h.polyfilled

/-- `apply` (src/index.js lines 124-171): return when already polyfilled or
natively supported; warn and return when `showModal` is missing from the
prototype; otherwise install the overrides (which also defines `closedBy`
on the prototype) and set `polyfilled`. -/
def apply (h : Host) : Host :=
  if h.polyfilled || isSupported h then h
  else if !h.showModalInProto then { h with warned := true }
  else { h with patched := true, closedByInProto := true, polyfilled := true }

/-- Well-formedness invariant of the global state: `activeDialogs` and the
record domain are duplicate-free and stack membership mirrors record
possession. -/
def Wf (st : PState) : Prop :=
  st.stack.Nodup ∧ st.records.Nodup ∧ ∀ d, d ∈ st.stack ↔ d ∈ st.records

/-- Concrete state with a single tracked dialog `0` that carries no
`closedby` attribute (resolved policy `"any"`). -/
def oneDialogState : PState :=
  { stack := [0], records := [0], attr := fun _ => none, isOpen := fun _ => true }

/-- Concrete empty state in which every dialog carries `closedby="any"` and
is open. -/
def allAnyState : PState :=
  { stack := [], records := [], attr := fun _ => some "any", isOpen := fun _ => true }

/-- Dialogs 0 (A), 1 (B) and 2 (C) attached in that order, all at resolved
policy `Any`. -/
def demoAttached : PState :=
  attachDialog (attachDialog (attachDialog allAnyState 0) 1) 2

/-- Concrete state with nothing tracked, every dialog closed, and every
dialog carrying `closedby="any"`. -/
def closedCfgState : PState :=
  { stack := [], records := [], attr := fun _ => some "any", isOpen := fun _ => false }

theorem mem_setAdd {l : List Nat} {d x : Nat} :
    x ∈ setAdd l d ↔ x ∈ l ∨ x = d := by
  unfold setAdd
  split
  · next h =>
    constructor
    · exact fun hx => Or.inl hx
    · intro hx
      cases hx with
      | inl h1 => exact h1
      | inr h1 => exact h1 ▸ h
  · simp [List.mem_append]

theorem setAdd_nodup {l : List Nat} {d : Nat} (h : l.Nodup) :
    (setAdd l d).Nodup := by
  unfold setAdd
  split
  · exact h
  · next hd => simp [List.nodup_append, h, hd]

theorem mem_setDelete {l : List Nat} {d x : Nat} :
    x ∈ setDelete l d ↔ x ∈ l ∧ x ≠ d := by
  simp [setDelete]

theorem setDelete_nodup {l : List Nat} {d : Nat} (h : l.Nodup) :
    (setDelete l d).Nodup :=
  List.Nodup.filter _ h

theorem getClosedByValue_cases (raw : Option String) :
    getClosedByValue raw = "any" ∨ getClosedByValue raw = "closerequest" ∨
      getClosedByValue raw = "none" := by
  rcases raw with _ | s
  · exact Or.inl rfl
  · by_cases h1 : s = "closerequest"
    · subst h1
      exact Or.inr (Or.inl (by simp [getClosedByValue]))
    · by_cases h2 : s = "none"
      · subst h2
        exact Or.inr (Or.inr (by simp [getClosedByValue]))
      · exact Or.inl (by simp [getClosedByValue, h1, h2])

theorem attach_noop {st : PState} {d : Nat} (h : d ∈ st.records) :
    attachDialog st d = st := by
  unfold attachDialog
  exact if_pos h

theorem detach_noop {st : PState} {d : Nat} (h : d ∉ st.records) :
    detachDialog st d = st := by
  unfold detachDialog
  exact if_neg h

theorem mem_records_attach (st : PState) (d : Nat) :
    d ∈ (attachDialog st d).records := by
  unfold attachDialog
  split
  · next h => exact h
  · exact mem_setAdd.mpr (Or.inr rfl)

theorem wf_attach {st : PState} (h : Wf st) (d : Nat) :
    Wf (attachDialog st d) := by
  unfold attachDialog
  split
  · exact h
  · exact ⟨setAdd_nodup h.1, setAdd_nodup h.2.1,
      fun x => by rw [mem_setAdd, mem_setAdd, h.2.2 x]⟩

theorem wf_detach {st : PState} (h : Wf st) (d : Nat) :
    Wf (detachDialog st d) := by
  unfold detachDialog
  split
  · exact ⟨setDelete_nodup h.1, setDelete_nodup h.2.1,
      fun x => by rw [mem_setDelete, mem_setDelete, h.2.2 x]⟩
  · exact h

theorem wf_close {st : PState} (h : Wf st) (d : Nat) :
    Wf (closePatched st d) :=
  wf_detach h d

theorem wf_showModal {st : PState} (h : Wf st) (d : Nat) (b : Bool) :
    Wf (showModalPatched st d b) := by
  have h1 : Wf { st with isOpen := setOpen st.isOpen d b } := h
  simp only [showModalPatched]
  split
  · exact h1
  · split
    · exact wf_attach h1 d
    · exact h1

theorem wf_closedBySet {st : PState} (h : Wf st) (d : Nat) (v : String) :
    Wf (closedBySet st d v) := by
  have h1 : ∀ a : Nat → Option String, Wf { st with attr := a } := fun _ => h
  simp only [closedBySet]
  repeat' split
  all_goals first
    | exact wf_attach (h1 _) d
    | exact wf_detach (h1 _) d
    | exact h1 _

theorem wf_foldl_close {cl : List Nat} {st : PState} (h : Wf st) :
    Wf (cl.foldl closePatched st) := by
  induction cl generalizing st with
  | nil => exact h
  | cons c rest ih => exact ih (wf_close h c)

theorem wf_escape {st : PState} (h : Wf st) (k : String) :
    Wf ((documentEscapeHandler st k).finalState) := by
  unfold documentEscapeHandler
  split
  · exact h
  · exact wf_foldl_close h

theorem escLoop_closes_at_most_one (attr : Nat → Option String)
    (l : List Nat) : (escLoop attr l).2.2.length ≤ 1 := by
  induction l with
  | nil => simp [escLoop]
  | cons d rest ih =>
    simp only [escLoop]
    split
    · simp
    · split
      · simp
      · exact ih

theorem escape_guard_false {st : PState} {rest : List Nat} {top : Nat}
    (h : st.stack = rest ++ [top]) :
    ¬("Escape" ≠ "Escape" ∨ st.stack = []) := by
  simp [h]

theorem escape_rev {st : PState} {rest : List Nat} {top : Nat}
    (h : st.stack = rest ++ [top]) :
    st.stack.reverse = top :: rest.reverse := by
  rw [h]; simp

theorem attach_attr (st : PState) (d : Nat) :
    (attachDialog st d).attr = st.attr := by
  unfold attachDialog
  split <;> rfl

theorem closedBySet_eq (st : PState) (d : Nat) (v : String) :
    closedBySet st d v =
      (if st.isOpen d then
        attachDialog { st with attr := setAttr st.attr d (some (if v = "any" ∨ v = "closerequest" ∨ v = "none" then v else "any")) } d
       else { st with attr := setAttr st.attr d (some (if v = "any" ∨ v = "closerequest" ∨ v = "none" then v else "any")) }) := by
  simp only [closedBySet]
  by_cases hv : v = "any" ∨ v = "closerequest" ∨ v = "none"
  · simp [hv, setAttr]
  · simp [hv, setAttr]

/-- C1: for every Escape keypress handled while the stack of tracked dialogs
is non-empty (stack = rest ++ [top], top being the most recently attached),
the handler walks the stack newest-first and stops at the first dialog with
a definite outcome — here the top, since every resolved policy is definite:
if its policy is `"none"`, the default action is prevented and no dialog is
closed (state unchanged); otherwise (`"any"` or `"closerequest"`) exactly
that dialog is closed and the default action is prevented; at most one
dialog is ever closed per keypress. -/
theorem escape_stack_walk (st : PState) (rest : List Nat) (top : Nat)
    (h : st.stack = rest ++ [top]) :
    (documentEscapeHandler st "Escape").closedDialogs.length ≤ 1 ∧
    (getClosedByValue (st.attr top) = "none" →
      (documentEscapeHandler st "Escape").prevented = true ∧
      (documentEscapeHandler st "Escape").closedDialogs = [] ∧
      (documentEscapeHandler st "Escape").finalState = st) ∧
    (getClosedByValue (st.attr top) ≠ "none" →
      (documentEscapeHandler st "Escape").prevented = true ∧
      (documentEscapeHandler st "Escape").closedDialogs = [top] ∧
      (documentEscapeHandler st "Escape").finalState = closePatched st top) := by
  have hne := escape_guard_false h
  have hrev := escape_rev h
  refine ⟨?_, ?_, ?_⟩
  · simp only [documentEscapeHandler, if_neg hne]
    exact escLoop_closes_at_most_one _ _
  · intro hnone
    simp [documentEscapeHandler, hne, hrev, escLoop, hnone, h]
  · intro hnn
    have hcb : getClosedByValue (st.attr top) = "any" ∨
        getClosedByValue (st.attr top) = "closerequest" := by
      rcases getClosedByValue_cases (st.attr top) with h1 | h1 | h1
      · exact Or.inl h1
      · exact Or.inr h1
      · exact absurd h1 hnn
    simp [documentEscapeHandler, hne, hrev, escLoop, hnn, hcb, h]

/-- Witness for C1 at a concrete one-dialog state: dialog 0 has no
`closedby` attribute, so its resolved policy is `"any"` and Escape closes
it while preventing the default action. -/
theorem escape_stack_walk_witness :
    (documentEscapeHandler oneDialogState "Escape").prevented = true ∧
    (documentEscapeHandler oneDialogState "Escape").closedDialogs = [0] := by
  have h := (escape_stack_walk oneDialogState [] 0 rfl).2.2 (by decide)
  exact ⟨h.1, h.2.1⟩

/-- C2: attach order is preserved (oldest first, most-recent last): with
dialogs 0 (A), 1 (B), 2 (C) attached in that order and all at resolved
policy `Any`, one Escape closes only C (leaving A and B tracked and open),
and a subsequent Escape closes only B (leaving A tracked and open). -/
theorem escape_stack_order :
    demoAttached.stack = [0, 1, 2] ∧
    (documentEscapeHandler demoAttached "Escape").closedDialogs = [2] ∧
    (documentEscapeHandler demoAttached "Escape").finalState.stack = [0, 1] ∧
    (documentEscapeHandler demoAttached "Escape").finalState.records = [0, 1] ∧
    (documentEscapeHandler demoAttached "Escape").finalState.isOpen 0 = true ∧
    (documentEscapeHandler demoAttached "Escape").finalState.isOpen 1 = true ∧
    (documentEscapeHandler demoAttached "Escape").finalState.isOpen 2 = false ∧
    (documentEscapeHandler (documentEscapeHandler demoAttached "Escape").finalState "Escape").closedDialogs = [1] ∧
    (documentEscapeHandler (documentEscapeHandler demoAttached "Escape").finalState "Escape").finalState.stack = [0] ∧
    (documentEscapeHandler (documentEscapeHandler demoAttached "Escape").finalState "Escape").finalState.records = [0] ∧
    (documentEscapeHandler (documentEscapeHandler demoAttached "Escape").finalState "Escape").finalState.isOpen 1 = false ∧
    (documentEscapeHandler (documentEscapeHandler demoAttached "Escape").finalState "Escape").finalState.isOpen 0 = true := by
  decide

/-- C3: attach is idempotent — a second attach on a dialog that already has
a record is a no-op — and on a well-formed state the attached dialog ends
up with exactly one record entry and exactly one Escape-stack entry. -/
theorem attach_idempotent (st : PState) (d : Nat) (h : Wf st) :
    attachDialog (attachDialog st d) d = attachDialog st d ∧
    (attachDialog st d).records.count d = 1 ∧
    (attachDialog st d).stack.count d = 1 := by
  refine ⟨attach_noop (mem_records_attach st d), ?_, ?_⟩
  · exact List.count_eq_one_of_mem (wf_attach h d).2.1 (mem_records_attach st d)
  · exact List.count_eq_one_of_mem (wf_attach h d).1
      (((wf_attach h d).2.2 d).mpr (mem_records_attach st d))

/-- Witness for C3 at the concrete empty well-formed state. -/
theorem attach_idempotent_witness :
    (attachDialog allAnyState 0).records.count 0 = 1 ∧
    (attachDialog allAnyState 0).stack.count 0 = 1 := by
  have h := attach_idempotent allAnyState 0
    ⟨List.nodup_nil, List.nodup_nil, fun d => Iff.rfl⟩
  exact ⟨h.2.1, h.2.2⟩

/-- C4 counterexample: a click landing exactly on the top edge of the
content box (box top=0 bottom=10 left=0 right=10, click at x=5, y=0, target
is the dialog, policy `Any`) is closed by the code, yet it does not lie
strictly outside the box — so "closed iff strictly outside" is false at
this input. -/
theorem backdrop_boundary_counterexample :
    handleClick 0 (some "any") ⟨0, 10, 0, 10⟩ ⟨0, 5, 0⟩ = true ∧
    strictlyOutsideSpec ⟨0, 10, 0, 10⟩ 5 0 = false ∧
    ¬(handleClick 0 (some "any") ⟨0, 10, 0, 10⟩ ⟨0, 5, 0⟩ = true ↔
      strictlyOutsideSpec ⟨0, 10, 0, 10⟩ 5 0 = true) := by
  decide

/-- C4 amended: the click handler closes the dialog iff the click's original
target is the dialog itself, the resolved policy is `"any"`, and the
coordinates do not lie strictly inside the content box (boundary points
count as outside).  In particular a descendant-target click never closes
the dialog regardless of policy, and a dialog-target click at policy
`"closerequest"` or `"none"` never closes it. -/
theorem backdrop_click_characterization (dialog : Nat) (attr : Option String)
    (rect : Rect) (ev : ClickEvent) :
    handleClick dialog attr rect ev = true ↔
      ev.target = dialog ∧ getClosedByValue attr = "any" ∧
      ¬(rect.top < ev.clientY ∧ ev.clientY < rect.bottom ∧
        rect.left < ev.clientX ∧ ev.clientX < rect.right) := by
  unfold handleClick
  split
  · next h1 => simp [h1]
  · next h1 =>
    push_neg at h1
    split
    · next h2 => simp [h1, h2]
    · next h2 =>
      push_neg at h2
      split
      · next h3 => simp [h1, h2, h3]
      · next h3 => simp [h1, h2, h3]

/-- C5: policy resolution is total — `"closerequest"` maps to itself
(`RequestOnly`), `"none"` maps to itself (`None`), every other value
(absent included) maps to `"any"` — and the `closedBy` getter computes
exactly this resolution of the attribute read at call time. -/
theorem policy_resolution_total (raw : Option String) :
    getClosedByValue (some "closerequest") = "closerequest" ∧
    getClosedByValue (some "none") = "none" ∧
    (raw ≠ some "closerequest" → raw ≠ some "none" →
      getClosedByValue raw = "any") ∧
    (∀ st d, closedByGet st d = getClosedByValue (st.attr d)) := by
  refine ⟨by decide, by decide, ?_, fun _ _ => rfl⟩
  intro h1 h2
  rcases raw with _ | s
  · rfl
  · have hs1 : s ≠ "closerequest" := fun hc => h1 (by rw [hc])
    have hs2 : s ≠ "none" := fun hc => h2 (by rw [hc])
    simp [getClosedByValue, hs1, hs2]

/-- Witness for C5 at a concrete unrecognized attribute value. -/
theorem policy_resolution_total_witness :
    getClosedByValue (some "garbage") = "any" :=
  (policy_resolution_total (some "garbage")).2.2.1 (by decide) (by decide)

/-- C6: the tracking invariant — each dialog appears at most once in the
Escape stack, and stack membership exactly mirrors possession of a listener
record — is preserved by every operation of the polyfill: attach, detach,
the patched close, the patched showModal, the `closedBy` setter, and the
document Escape handler. -/
theorem tracking_invariant_preserved (st : PState) (h : Wf st) :
    (∀ d, Wf (attachDialog st d)) ∧
    (∀ d, Wf (detachDialog st d)) ∧
    (∀ d, Wf (closePatched st d)) ∧
    (∀ d b, Wf (showModalPatched st d b)) ∧
    (∀ d v, Wf (closedBySet st d v)) ∧
    (∀ k, Wf ((documentEscapeHandler st k).finalState)) :=
  ⟨fun d => wf_attach h d, fun d => wf_detach h d, fun d => wf_close h d,
   fun d b => wf_showModal h d b, fun d v => wf_closedBySet h d v,
   fun k => wf_escape h k⟩

/-- Witness for C6 at the concrete empty well-formed state. -/
theorem tracking_invariant_preserved_witness :
    Wf (attachDialog allAnyState 0) :=
  (tracking_invariant_preserved allAnyState
    ⟨List.nodup_nil, List.nodup_nil, fun _ => Iff.rfl⟩).1 0

/-- C7: detach is idempotent and total — on a dialog with no record it is a
no-op returning the state unchanged (stack and record map untouched), and a
second detach after a first one is always a no-op; being a total Lean
function it never throws. -/
theorem detach_idempotent_total (st : PState) (d : Nat) :
    (d ∉ st.records → detachDialog st d = st) ∧
    detachDialog (detachDialog st d) d = detachDialog st d := by
  constructor
  · exact detach_noop
  · by_cases hd : d ∈ st.records
    · have hout : d ∉ (detachDialog st d).records := by
        simp [detachDialog, hd, mem_setDelete]
      exact detach_noop hout
    · rw [detach_noop hd]
      exact detach_noop hd

/-- Witness for C7: detaching a never-attached dialog from a concrete state
leaves it unchanged. -/
theorem detach_idempotent_total_witness :
    detachDialog oneDialogState 5 = oneDialogState :=
  (detach_idempotent_total oneDialogState 5).1 (by decide)

/-- C8: on the open transition, if the dialog did not end up open after the
native open sequence, no record is created and the Escape stack is
untouched; if it did end up open, attach is called exactly when the dialog
carries a `closedby` attribute (so the dialog gains a record), and no
record is created when the attribute is absent. -/
theorem show_modal_gating (st : PState) (d : Nat) :
    ((showModalPatched st d false).records = st.records ∧
     (showModalPatched st d false).stack = st.stack) ∧
    ((st.attr d).isSome = true →
      showModalPatched st d true =
        attachDialog { st with isOpen := setOpen st.isOpen d true } d ∧
      d ∈ (showModalPatched st d true).records) ∧
    ((st.attr d).isSome = false →
      (showModalPatched st d true).records = st.records ∧
      (showModalPatched st d true).stack = st.stack) := by
  refine ⟨?_, ?_, ?_⟩
  · constructor <;> simp [showModalPatched, setOpen]
  · intro hs
    have he : showModalPatched st d true =
        attachDialog { st with isOpen := setOpen st.isOpen d true } d := by
      simp [showModalPatched, setOpen, hs]
    refine ⟨he, ?_⟩
    rw [he]
    exact mem_records_attach _ d
  · intro hs
    constructor <;> simp [showModalPatched, setOpen, hs]

/-- Witness for C8: opening dialog 1 (which carries `closedby="any"`) from
the concrete untracked state creates its record. -/
theorem show_modal_gating_witness :
    1 ∈ (showModalPatched closedCfgState 1 true).records :=
  ((show_modal_gating closedCfgState 1).2.1 rfl).2

/-- C9: initialization is idempotent and self-gating — a second `apply` is a
no-op, `apply` on a host already natively implementing `closedBy` is a
no-op, `apply` when already polyfilled is a no-op, and on a host whose
dialog prototype lacks `showModal` it only emits the diagnostic: nothing is
patched and the applied-state probe still reports false. -/
theorem apply_idempotent_gated (h : Host) :
    apply (apply h) = apply h ∧
    (isSupported h = true → apply h = h) ∧
    (h.polyfilled = true → apply h = h) ∧
    (isSupported h = false → h.polyfilled = false → h.showModalInProto = false →
      apply h = { h with warned := true } ∧
      isPolyfilled (apply h) = false ∧ (apply h).patched = h.patched) := by
  obtain ⟨p, c, s, pa, w⟩ := h
  cases p <;> cases c <;> cases s <;> cases pa <;> cases w <;> decide

/-- Witness for C9: a host with no native support, not yet polyfilled and
missing `showModal` is left unpatched and unpolyfilled. -/
theorem apply_idempotent_gated_witness :
    isPolyfilled (apply ⟨false, false, false, false, false⟩) = false ∧
    (apply (⟨false, false, false, false, false⟩ : Host)).patched = false :=
  ((apply_idempotent_gated ⟨false, false, false, false, false⟩).2.2.2
    rfl rfl rfl).2

/-- C10: every `closedBy` property write leaves the `closedby` attribute
present — a recognized literal is stored verbatim and any other value is
stored as `"any"` — hence after a write on an open dialog the attach branch
is always taken (the setter's detach branch is unreachable) and a write
never removes a tracked dialog from the record map. -/
theorem setter_never_detaches (st : PState) (d : Nat) (v : String) :
    ((closedBySet st d v).attr d).isSome = true ∧
    ((v = "any" ∨ v = "closerequest" ∨ v = "none") →
      (closedBySet st d v).attr d = some v) ∧
    (¬(v = "any" ∨ v = "closerequest" ∨ v = "none") →
      (closedBySet st d v).attr d = some "any") ∧
    (st.isOpen d = true → d ∈ (closedBySet st d v).records) ∧
    (d ∈ st.records → d ∈ (closedBySet st d v).records) := by
  have he := closedBySet_eq st d v
  have hattr : (closedBySet st d v).attr d =
      some (if v = "any" ∨ v = "closerequest" ∨ v = "none" then v else "any") := by
    rw [he]
    split
    · simp [attach_attr, setAttr]
    · simp [setAttr]
  refine ⟨?_, ?_, ?_, ?_, ?_⟩
  · rw [hattr]; rfl
  · intro hv; rw [hattr, if_pos hv]
  · intro hv; rw [hattr, if_neg hv]
  · intro ho
    rw [he, if_pos ho]
    exact mem_records_attach _ d
  · intro hm
    rw [he]
    split
    · exact mem_records_attach _ d
    · exact hm

/-- Witness for C10: writing an unrecognized value to an open, tracked
dialog keeps it tracked (and stores `closedby="any"`). -/
theorem setter_never_detaches_witness :
    0 ∈ (closedBySet oneDialogState 0 "bogus").records ∧
    (closedBySet oneDialogState 0 "bogus").attr 0 = some "any" :=
  ⟨(setter_never_detaches oneDialogState 0 "bogus").2.2.2.1 rfl,
   (setter_never_detaches oneDialogState 0 "bogus").2.2.1 (by decide)⟩

end ClosedByPolyfill
